import Mathlib

/-!
# Verification of nagare editor / validator

A shallow embedding of `nagare/editor.py` (Property, Editor) and
`src/nagare/validator.py` (Validator, IntValidator, StringValidator and the
DualCallable lazy/eager machinery), with theorems settling the specified
claims.

Modelling conventions:

* Python's dynamically typed values are modelled by `PyVal`.  A zero-argument
  callable is modelled by the outcome of invoking it: the value it returns
  (`PyVal.callable`) or the exception its invocation raises
  (`PyVal.callableRaises`); an object carrying a `file` attribute (such as
  `cgi.FieldStorage`) is modelled by `PyVal.fileObj`.
* Python exceptions are modelled by `Exc`; `ValueError msg` carries
  `args[0]`.  (An argless `ValueError()` is outside the model: the source's
  `data.args[0]` would itself raise on it.)
* A mutating method that may raise returns the post-state paired with
  `Option Exc` (the uncaught exception, `none` on normal return), so that the
  state at the point of a raise is preserved, as it is in Python.
* The i18n wrapper `_L` is an opaque translation; it is modelled as the
  identity on the template string, and `%`-formatting of each default
  template is modelled by the corresponding concatenation.
* Host functions (`int(...)`, `str.strip`, `str.isalnum`, ..., `re.match`)
  are modelled over ASCII-style `String`s: `pyInt`, `pyStrip`, `pyIsAlnum`,
  ...; the regex engine behind `re.match` is an oracle predicate parameter.
-/

/-- Model of a Python exception. -/
inductive Exc : Type where
  | valueError (msg : String)
  | typeError (msg : String)
  | other (name msg : String)
  deriving DecidableEq, Repr

/-- Is this exception a `ValueError` (the invalid-value signal)? -/
def Exc.isValueError : Exc → Bool
  | .valueError _ => true
  | _ => false

/-- Model of a dynamically typed Python value.  A zero-argument callable
either returns a value (`callable`) or raises when invoked
(`callableRaises`). -/
inductive PyVal : Type where
  | str (s : String)
  | int (n : Int)
  | none
  | callable (result : PyVal)
  | callableRaises (e : Exc)
  | fileObj (data : String)
  | obj (tag : String)
  deriving DecidableEq, Repr

/-- `hasattr(v, 'file')`: only the `cgi.FieldStorage`-like object has a
`file` attribute in this model. -/
def PyVal.hasFileAttr : PyVal → Bool
  | .fileObj _ => true
  | _ => false

/-- `callable(v)`: true exactly for the zero-argument callables. -/
def PyVal.isCallable : PyVal → Bool
  | .callable _ => true
  | .callableRaises _ => true
  | _ => false

/-- Invoking a zero-argument callable: it returns the value it carries, or
raises the exception it carries; on a non-callable value this is unused by
the embedded code (the source guards every invocation with `callable`). -/
def PyVal.call0 : PyVal → Except Exc PyVal
  | .callable r => Except.ok r
  | .callableRaises e => Except.error e
  | v => Except.ok v

/-- `isinstance(v, str)`. -/
def PyVal.isStr : PyVal → Bool
  | .str _ => true
  | _ => false

/-! ## Property (`nagare/editor.py`, class `Property`)

`Property(var.Var)` holds the current value (the inherited `Var` storage,
field `input`), the last valid value (`value`), the last error message
(`error`) and the validating function (`_validate`, settable through
`validate`). -/

/-- An editor property.  The inherited `var.Var` storage (the current value,
written by `super().set`) is the field `input`. -/
structure Property : Type where
  input : PyVal
  value : PyVal
  error : Option String
  _validate : PyVal → Except Exc PyVal

/-- `Property.__init__(v)`: the `Var` storage and `value` start at `v`,
`error` at `None`, and `_validate` is the default identity validation. -/
def Property.ofVal (v : PyVal) : Property :=
  ⟨v, v, Option.none, fun input => Except.ok input⟩

/-- `Property.validate(f)`: replace the validating function, return self. -/
def Property.validate (p : Property) (f : PyVal → Except Exc PyVal) : Property :=
  { p with _validate := f }

/-- `Property.set(input)`:
record `input` in the `Var` storage unless it has a `file` attribute, then
run the `try` block statement by statement, as the source does:
`self.value = self._validate(input)` assigns first; if the new `value` is
callable, `self.value = self.value()` invokes it — an exception raised by
that invocation therefore finds `value` already overwritten with the
callable; `self.error = None` runs only when neither statement raised.  A
`ValueError` raised anywhere in the block is caught and its message stored
in `error`; any other exception propagates (second component). -/
def Property.set (p : Property) (input : PyVal) : Property × Option Exc :=
  let p := if input.hasFileAttr then p else { p with input := input }
  match p._validate input with
  | Except.ok v =>
      let p := { p with value := v }
      if v.isCallable then
        match v.call0 with
        | Except.ok v' => ({ p with value := v', error := Option.none }, Option.none)
        | Except.error (Exc.valueError msg) =>
            ({ p with error := Option.some msg }, Option.none)
        | Except.error e => (p, Option.some e)
      else ({ p with error := Option.none }, Option.none)
  | Except.error (Exc.valueError msg) =>
      ({ p with error := Option.some msg }, Option.none)
  | Except.error e => (p, Option.some e)

/-! ## Editor (`nagare/editor.py`, class `Editor`)

The target object is a map from attribute names to values; the properties
created on the editor are a map from names to `Property`.  In the source a
lookup of a name for which no property was created raises `AttributeError`;
such lookups are never exercised here, and `fromTarget` gives those names a
default fresh property. -/

/-- `Editor.read_value(target, name)` = `getattr(target, name)`. -/
def Editor.read_value (target : String → PyVal) (name : String) : PyVal :=
  target name

/-- `Editor.write_value(target, name, value)` = `setattr(target, name, value)`. -/
def Editor.write_value (target : String → PyVal) (name : String) (value : PyVal) :
    String → PyVal :=
  fun m => if m = name then value else target m

/-- An editor: the target object, the default names to commit, and the
named properties set on the editor. -/
structure Editor : Type where
  target : String → PyVal
  properties_to_commit : List String
  props : String → Property

/-- `Editor.__init__(target, properties_to_create)`: one property per name,
initialised from the target's attribute of the same name. -/
def Editor.fromTarget (target : String → PyVal) (names : List String) : Editor :=
  ⟨target, names,
   fun name =>
     if name ∈ names then Property.ofVal (Editor.read_value target name)
     else Property.ofVal PyVal.none⟩

/-- `Editor.is_validated(properties_to_validate)`: all named properties have
`error is None`. -/
def Editor.is_validated (e : Editor) (names : List String) : Bool :=
  names.all fun name => (e.props name).error.isNone

/-- `Editor.commit(properties_to_commit=None, properties_to_validate=())`:
default the commit set, check validity of the union of the two name sets
(membership in the union is membership in the concatenation, and
`is_validated` is a pure per-name conjunction, so the concatenation is
used), and only if valid write every committed property's `value` back onto
the target.  Returns the updated editor and the validity boolean. -/
def Editor.commit (e : Editor) (ptc : Option (List String)) (ptv : List String) :
    Editor × Bool :=
  let names := ptc.getD e.properties_to_commit
  let validated := e.is_validated (names ++ ptv)
  if validated then
    ({ e with
        target := names.foldl
          (fun t name => Editor.write_value t name (e.props name).value) e.target },
     validated)
  else (e, validated)

/-! ## Helper lemmas about `Editor.commit` -/

/-- After folding the per-name writes, a committed name holds its property's
value and every other name is untouched. -/
theorem Editor.writeAll_apply (props : String → Property) (t : String → PyVal)
    (names : List String) (n : String) :
    names.foldl (fun t name => Editor.write_value t name (props name).value) t n
      = if n ∈ names then (props n).value else t n := by
  induction names generalizing t with
  | nil => simp
  | cons x xs ih =>
      simp only [List.foldl_cons, ih, List.mem_cons]
      by_cases hxs : n ∈ xs
      · simp [hxs]
      · by_cases hx : n = x
        · subst hx
          simp [hxs, Editor.write_value]
        · simp [hxs, hx, Editor.write_value]

/-- `is_validated` is the per-name error check. -/
theorem Editor.is_validated_iff (e : Editor) (names : List String) :
    e.is_validated names = true ↔ ∀ n ∈ names, (e.props n).error = Option.none := by
  simp [Editor.is_validated, List.all_eq_true, Option.isNone_iff_eq_none]

/-! ## Host functions modelled for the validator (`src/nagare/validator.py`)

`str.strip` / `lstrip` / `rstrip`, the `str.is*` character-class predicates
and the builtin `int(s, base)` are host (CPython) operations; they are
modelled here over `String`. -/

/-- The characters removed by `strip(chars)`: the given set, or whitespace
when `chars` is `None`. -/
def stripSet (chars : Option (List Char)) (c : Char) : Bool :=
  match chars with
  | Option.none => c.isWhitespace
  | Option.some cs => cs.contains c

/-- `s.lstrip(chars)`. -/
def pyLstrip (s : String) (chars : Option (List Char)) : String :=
  (s.toList.dropWhile (stripSet chars)).asString

/-- `s.rstrip(chars)`. -/
def pyRstrip (s : String) (chars : Option (List Char)) : String :=
  ((s.toList.reverse.dropWhile (stripSet chars)).reverse).asString

/-- `s.strip(chars)`: remove from both ends. -/
def pyStrip (s : String) (chars : Option (List Char)) : String :=
  pyLstrip (pyRstrip s chars) chars

/-- Value of one digit character, letters counting from 10, as in the host
`int` builtin for bases up to 36. -/
def digitVal (c : Char) : Option Nat :=
  if '0' ≤ c ∧ c ≤ '9' then Option.some (c.toNat - '0'.toNat)
  else if 'a' ≤ c ∧ c ≤ 'z' then Option.some (c.toNat - 'a'.toNat + 10)
  else if 'A' ≤ c ∧ c ≤ 'Z' then Option.some (c.toNat - 'A'.toNat + 10)
  else Option.none

/-- Accumulate the digits of a base-`base` numeral; fails on a character
that is not a digit of the base. -/
def parseDigits (base : Nat) : List Char → Nat → Option Nat
  | [], acc => Option.some acc
  | c :: cs, acc =>
      match digitVal c with
      | Option.some d =>
          if d < base then parseDigits base cs (acc * base + d) else Option.none
      | Option.none => Option.none

/-- A nonempty base-`base` numeral. -/
def parseNat (base : Nat) (cs : List Char) : Option Nat :=
  if cs.isEmpty then Option.none else parseDigits base cs 0

/-- Model of the host `int(s, base)` conversion: surrounding whitespace is
ignored, an optional sign precedes a nonempty run of digits of the base.
`none` is the host's `ValueError` on an invalid literal. -/
def pyInt (s : String) (base : Nat) : Option Int :=
  let cs := ((s.toList.dropWhile Char.isWhitespace).reverse.dropWhile
    Char.isWhitespace).reverse
  match cs with
  | '+' :: rest => (parseNat base rest).map Int.ofNat
  | '-' :: rest => (parseNat base rest).map fun n => -(Int.ofNat n)
  | rest => (parseNat base rest).map Int.ofNat

/-- The host's `repr` of a string with no special characters: the text
between single quotes. -/
def pyReprStr (s : String) : String :=
  "\x27" ++ s ++ "\x27"

/-- The host's native message for an invalid `int` literal. -/
def pyIntErrMsg (s : String) (base : Nat) : String :=
  "invalid literal for int() with base " ++ toString base ++ ": " ++ pyReprStr s

/-- `s.isalnum()` (host predicate, ASCII model): nonempty and all
alphanumeric. -/
def pyIsAlnum (s : String) : Bool :=
  !s.isEmpty && s.toList.all Char.isAlphanum

/-- `s.isalpha()`. -/
def pyIsAlpha (s : String) : Bool :=
  !s.isEmpty && s.toList.all Char.isAlpha

/-- `s.isdigit()`. -/
def pyIsDigit (s : String) : Bool :=
  !s.isEmpty && s.toList.all Char.isDigit

/-- `s.islower()`: at least one cased character and no uppercase one. -/
def pyIsLower (s : String) : Bool :=
  s.toList.any Char.isAlpha && s.toList.all fun c => !c.isUpper

/-- `s.isupper()`: at least one cased character and no lowercase one. -/
def pyIsUpper (s : String) : Bool :=
  s.toList.any Char.isAlpha && s.toList.all fun c => !c.isLower

/-- `s.isspace()`: nonempty and all whitespace. -/
def pyIsSpace (s : String) : Bool :=
  !s.isEmpty && s.toList.all Char.isWhitespace

/-! ## Base Validator (`src/nagare/validator.py`, class `Validator`)

`Validator.__init__(v, strip, rstrip, lstrip, chars, msg)` with the default
message `_L('Input must be a string')`.  The wrapped value after a
successful construction is a string. -/

/-- `Validator.__init__`: require a string, then apply `strip`, `rstrip`
and `lstrip` in that order (cumulatively, as the source does). -/
def Validator.init (v : PyVal) (strip rstrip lstrip : Bool)
    (chars : Option (List Char)) : Except Exc String :=
  match v with
  | PyVal.str s =>
      let s := if strip then pyStrip s chars else s
      let s := if rstrip then pyRstrip s chars else s
      let s := if lstrip then pyLstrip s chars else s
      Except.ok s
  | _ => Except.error (Exc.valueError "Input must be a string")

/-- `Validator.__call__`: return the wrapped value. -/
def Validator.call (value : α) : α := value

/-! ## IntValidator

The wrapped value after construction is the parsed integer; each check
returns the post-state (always the unchanged value, since no check assigns
`self.value`) paired with the exception it raises, if any.  Messages are the
default templates after `_L` (identity) and `%`-formatting. -/

/-- `IntValidator.__init__(v, base)`: base construction then `int(self.value,
base)`, re-raising any parse failure as `ValueError(_L('Must be an
integer'))`. -/
def IntValidator.init (v : PyVal) (base : Nat) (strip rstrip lstrip : Bool)
    (chars : Option (List Char)) : Except Exc Int :=
  match Validator.init v strip rstrip lstrip chars with
  | Except.error e => Except.error e
  | Except.ok s =>
      match pyInt s base with
      | Option.some n => Except.ok n
      | Option.none => Except.error (Exc.valueError "Must be an integer")

/-- `IntValidator.to_int = Validator.__call__`: extract the integer. -/
def IntValidator.to_int (self : Int) : Int := self

/-- `IntValidator.lesser_than(max)`. -/
def IntValidator.lesser_than (self max : Int) : Int × Option Exc :=
  if self < max then (self, Option.none)
  else (self, Option.some (Exc.valueError ("Must be lesser than " ++ toString max)))

/-- `IntValidator.lesser_or_equal_than(max)`. -/
def IntValidator.lesser_or_equal_than (self max : Int) : Int × Option Exc :=
  if self ≤ max then (self, Option.none)
  else (self,
    Option.some (Exc.valueError ("Must be lesser or equal than " ++ toString max)))

/-- `IntValidator.greater_than(min)`. -/
def IntValidator.greater_than (self min : Int) : Int × Option Exc :=
  if self > min then (self, Option.none)
  else (self, Option.some (Exc.valueError ("Must be greater than " ++ toString min)))

/-- `IntValidator.greater_or_equal_than(min)`. -/
def IntValidator.greater_or_equal_than (self min : Int) : Int × Option Exc :=
  if self ≥ min then (self, Option.none)
  else (self,
    Option.some (Exc.valueError ("Must be greater or equal than " ++ toString min)))

/-! ## StringValidator

The wrapped value stays a string throughout the non-converting checks;
each takes the current value (`self`) and returns the post-state with the
exception raised, if any.  `to_int` is the one check that converts:
it assigns the parsed integer to `self.value` and returns it, and it does
not catch the host's parse failure. -/

/-- `StringValidator.to_string = Validator.__call__`: extract the string. -/
def StringValidator.to_string (self : String) : String := self

/-- `StringValidator.to_int(base)`: `self.value = int(self.value, base)` then
return `self.value`.  There is no `try` around the conversion: the host's
native `ValueError` propagates with its native message.  On success the new
wrapped value (first component) and the returned integer coincide. -/
def StringValidator.to_int (self : String) (base : Nat) : Except Exc (PyVal × Int) :=
  match pyInt self base with
  | Option.some n => Except.ok (PyVal.int n, n)
  | Option.none => Except.error (Exc.valueError (pyIntErrMsg self base))

/-- `StringValidator.not_empty()`. -/
def StringValidator.not_empty (self : String) : String × Option Exc :=
  if self.length ≠ 0 then (self, Option.none)
  else (self, Option.some (Exc.valueError "Can\x27t be empty"))

/-- `StringValidator.match(r)`: `re.match(r, self.value)`, the regex engine
modelled as an oracle predicate `r` (true iff the value matches from the
start). -/
def StringValidator.match' (self : String) (r : String → Bool) : String × Option Exc :=
  if r self then (self, Option.none)
  else (self, Option.some (Exc.valueError "Incorrect format"))

/-- `StringValidator.shorter_than(max)`. -/
def StringValidator.shorter_than (self : String) (max : Nat) : String × Option Exc :=
  if self.length < max then (self, Option.none)
  else (self, Option.some (Exc.valueError
    ("Length must be shorter than " ++ toString max ++ " characters")))

/-- `StringValidator.shorter_or_equal_than(max)`. -/
def StringValidator.shorter_or_equal_than (self : String) (max : Nat) :
    String × Option Exc :=
  if self.length ≤ max then (self, Option.none)
  else (self, Option.some (Exc.valueError
    ("Length must be shorter or equal than " ++ toString max ++ " characters")))

/-- `StringValidator.length_equal(v)`. -/
def StringValidator.length_equal (self : String) (v : Nat) : String × Option Exc :=
  if self.length = v then (self, Option.none)
  else (self, Option.some (Exc.valueError
    ("Length must be " ++ toString v ++ " characters")))

/-- `StringValidator.longer_than(min)`. -/
def StringValidator.longer_than (self : String) (min : Nat) : String × Option Exc :=
  if self.length > min then (self, Option.none)
  else (self, Option.some (Exc.valueError
    ("Length must be longer than " ++ toString min ++ " characters")))

/-- `StringValidator.longer_or_equal_than(min)`. -/
def StringValidator.longer_or_equal_than (self : String) (min : Nat) :
    String × Option Exc :=
  if self.length ≥ min then (self, Option.none)
  else (self, Option.some (Exc.valueError
    ("Length must be longer or equal than " ++ toString min ++ " characters")))

/-- `StringValidator.isalnum()`. -/
def StringValidator.isalnum (self : String) : String × Option Exc :=
  if pyIsAlnum self then (self, Option.none)
  else (self, Option.some (Exc.valueError "Some characters are not alphanumeric"))

/-- `StringValidator.isalpha()`. -/
def StringValidator.isalpha (self : String) : String × Option Exc :=
  if pyIsAlpha self then (self, Option.none)
  else (self, Option.some (Exc.valueError "Some characters are not alphabetic"))

/-- `StringValidator.isdigit()`. -/
def StringValidator.isdigit (self : String) : String × Option Exc :=
  if pyIsDigit self then (self, Option.none)
  else (self, Option.some (Exc.valueError "Some characters are not digits"))

/-- `StringValidator.islower()`. -/
def StringValidator.islower (self : String) : String × Option Exc :=
  if pyIsLower self then (self, Option.none)
  else (self, Option.some (Exc.valueError "Some characters are not lowercase"))

/-- `StringValidator.isupper()`. -/
def StringValidator.isupper (self : String) : String × Option Exc :=
  if pyIsUpper self then (self, Option.none)
  else (self, Option.some (Exc.valueError "Some characters are not uppercase"))

/-- `StringValidator.isspace()`. -/
def StringValidator.isspace (self : String) : String × Option Exc :=
  if pyIsSpace self then (self, Option.none)
  else (self, Option.some (Exc.valueError "Some characters are not whitespace"))

/-! ## DualCallable / DualValidator (`src/nagare/validator.py`)

The metaclass wraps every public method `m` of a validator class so that
the dual (lazy) class records `(m, args, kw)` in `self._calls` instead of
executing it; `DualValidator.__call__(value)` then builds the eager
validator on `value`, replays every recorded call in order, and returns
`validator()` (the terminal extraction).

In the embedding a validator class is a state type `σ` (its wrapped
value), a constructor `init` that may raise, a type `M` of public-method
invocations (method plus arguments), the dispatch `apply` of such an
invocation on the state (the same dispatch on both the eager and the lazy
path, as both come from the one class namespace), and the terminal
`__call__` extraction `term`. -/

/-- The lazy validator: the list of recorded method calls. -/
structure DualValidator (M : Type) : Type where
  _calls : List M

/-- `DualValidator.__init__`: `self._calls = []`. -/
def DualValidator.new (M : Type) : DualValidator M := ⟨[]⟩

/-- `DualValidator._defer_call`: append the call, return self. -/
def DualValidator.deferCall (d : DualValidator M) (m : M) : DualValidator M :=
  ⟨d._calls ++ [m]⟩

/-- Replay a list of method calls on a state, stopping at the first
exception (a raise aborts the remaining chain). -/
def runCalls (apply : M → σ → σ × Option Exc) : σ → List M → σ × Option Exc
  | s, [] => (s, Option.none)
  | s, m :: ms =>
      match apply m s with
      | (s', Option.none) => runCalls apply s' ms
      | (s', Option.some e) => (s', Option.some e)

/-- `DualValidator.__call__(value)`: construct the eager validator on
`value`, replay the recorded calls, and return the terminal extraction
(or the first exception). -/
def DualValidator.call (d : DualValidator M) (init : PyVal → Except Exc σ)
    (apply : M → σ → σ × Option Exc) (term : σ → ρ) (v : PyVal) : Except Exc ρ :=
  match init v with
  | Except.error e => Except.error e
  | Except.ok s =>
      match runCalls apply s d._calls with
      | (_, Option.some e) => Except.error e
      | (s', Option.none) => Except.ok (term s')

/-- The eager convention: construct the validator on the value, invoke the
same checks directly in the same order, then the terminal extraction. -/
def eagerChain (init : PyVal → Except Exc σ) (apply : M → σ → σ × Option Exc)
    (term : σ → ρ) (v : PyVal) (ms : List M) : Except Exc ρ :=
  match init v with
  | Except.error e => Except.error e
  | Except.ok s =>
      match runCalls apply s ms with
      | (_, Option.some e) => Except.error e
      | (s', Option.none) => Except.ok (term s')

/-- Recording calls one by one starting from a fresh lazy validator
accumulates exactly the invoked list. -/
theorem DualValidator.foldl_deferCall (d : DualValidator M) (ms : List M) :
    (ms.foldl DualValidator.deferCall d)._calls = d._calls ++ ms := by
  induction ms generalizing d with
  | nil => simp
  | cons m ms ih => simp [List.foldl_cons, ih, DualValidator.deferCall]

/-- The public-method invocations of the eager `IntValidator`, with their
arguments. -/
inductive IntCheck : Type where
  | lesser_than (max : Int)
  | lesser_or_equal_than (max : Int)
  | greater_than (min : Int)
  | greater_or_equal_than (min : Int)
  deriving DecidableEq, Repr

/-- Dispatch of an `IntCheck` on the wrapped integer. -/
def IntCheck.apply : IntCheck → Int → Int × Option Exc
  | .lesser_than max, s => IntValidator.lesser_than s max
  | .lesser_or_equal_than max, s => IntValidator.lesser_or_equal_than s max
  | .greater_than min, s => IntValidator.greater_than s min
  | .greater_or_equal_than min, s => IntValidator.greater_or_equal_than s min

/-- `IntValidator.__init__` at the default keyword arguments
(`base=10`, no stripping). -/
def intValidatorInit (v : PyVal) : Except Exc Int :=
  IntValidator.init v 10 false false false Option.none

/-! ## Claim theorems: Editor -/

/-- C1: `Editor.commit` is atomic with respect to the requested set: if any
property named in the union of the two name sets has a non-`None` error,
commit writes no attribute onto the target and returns `false`; if every
such property has error `None`, commit writes each named property's value
onto the target for every name in `names_to_commit` and returns `true`. -/
theorem commit_atomic (e : Editor) (ptc ptv : List String) :
    ((∃ n ∈ ptc ++ ptv, (e.props n).error ≠ Option.none) →
      (e.commit (Option.some ptc) ptv).2 = false ∧
        (e.commit (Option.some ptc) ptv).1.target = e.target)
    ∧ ((∀ n ∈ ptc ++ ptv, (e.props n).error = Option.none) →
      (e.commit (Option.some ptc) ptv).2 = true ∧
        ∀ n ∈ ptc, (e.commit (Option.some ptc) ptv).1.target n = (e.props n).value) := by
  constructor
  · rintro ⟨n, hn, hne⟩
    have hv : e.is_validated (ptc ++ ptv) = false := by
      rw [← Bool.not_eq_true, Editor.is_validated_iff]
      push_neg
      exact ⟨n, hn, hne⟩
    constructor <;> simp [Editor.commit, hv]
  · intro h
    have hv : e.is_validated (ptc ++ ptv) = true := (Editor.is_validated_iff e _).2 h
    constructor
    · simp [Editor.commit, hv]
    · intro n hn
      simp [Editor.commit, hv, Editor.writeAll_apply, hn]

/-- A concrete editor whose single property is valid. -/
def witEditorOK : Editor := Editor.fromTarget (fun _ => PyVal.int 1) ["a"]

/-- A concrete editor whose single property carries an error. -/
def witEditorBad : Editor :=
  ⟨fun _ => PyVal.int 1, ["a"],
   fun _ => ⟨PyVal.str "x", PyVal.int 2, Option.some "bad", fun i => Except.ok i⟩⟩

/-- Witness for `commit_atomic` on both branches. -/
theorem commit_atomic_witness :
    ((witEditorBad.commit (Option.some ["a"]) []).2 = false ∧
      (witEditorBad.commit (Option.some ["a"]) []).1.target = witEditorBad.target)
    ∧ ((witEditorOK.commit (Option.some ["a"]) []).2 = true ∧
      ∀ n ∈ ["a"], (witEditorOK.commit (Option.some ["a"]) []).1.target n
        = (witEditorOK.props n).value) :=
  ⟨(commit_atomic witEditorBad ["a"] []).1 (by decide),
   (commit_atomic witEditorOK ["a"] []).2 (by decide)⟩

/-- C9: committing the empty set of names succeeds vacuously: with empty
`names_to_commit` and `names_to_also_validate` the commit returns `true`
and leaves the target (indeed the whole editor) unchanged, and an editor
constructed with no property names has `commit()` return `true` with the
target unchanged. -/
theorem commit_empty (e : Editor) (target : String → PyVal) :
    e.commit (Option.some []) [] = (e, true)
    ∧ (Editor.fromTarget target []).commit Option.none [] =
        (Editor.fromTarget target [], true) := by
  constructor <;> rfl

/-! ## Claim theorems: Property -/

/-- A property whose validating function returns a zero-argument callable
whose invocation raises `ValueError("boom")` — the shape
`p.validate(lambda v: g)` where `g()` raises. -/
def cexCallableProp : Property :=
  (Property.ofVal (PyVal.str "a")).validate fun _ =>
    Except.ok (PyVal.callableRaises (Exc.valueError "boom"))

/-- C3 counterexample: the claimed invariant is false of the program.  When
the validating function returns a zero-argument callable whose invocation
raises `ValueError`, `set` returns normally with `error ≠ None` and with
`value` changed: `self.value = self._validate(input)` has already
overwritten `value` with the callable when the invocation raises. -/
theorem property_set_invariant_cex :
    (cexCallableProp.set (PyVal.str "b")).2 = Option.none
    ∧ (cexCallableProp.set (PyVal.str "b")).1.error ≠ Option.none
    ∧ (cexCallableProp.set (PyVal.str "b")).1.value ≠ cexCallableProp.value := by
  decide

/-- C3 (amended): after `set(input)` returns (no exception propagates): if
`error` is `None` then `value` is the result of the validating function
applied to the latest input, a zero-argument-callable result being replaced
by the value its invocation returned; if `error` is not `None` then either
`value` is exactly what it was before the call (the validating function
itself raised), or the validating function returned a zero-argument
callable whose invocation raised `ValueError`, and `value` is that
callable. -/
theorem property_set_invariant (p : Property) (input : PyVal) :
    (p.set input).2 = Option.none →
      ((p.set input).1.error = Option.none →
        ∃ v, p._validate input = Except.ok v ∧
          ((v.isCallable = false ∧ (p.set input).1.value = v)
            ∨ (v.isCallable = true
                ∧ v.call0 = Except.ok ((p.set input).1.value))))
      ∧ ((p.set input).1.error ≠ Option.none →
        (p.set input).1.value = p.value
        ∨ ∃ v msg, p._validate input = Except.ok v ∧ v.isCallable = true
            ∧ v.call0 = Except.error (Exc.valueError msg)
            ∧ (p.set input).1.value = v) := by
  rcases hv : p._validate input with e | v
  · rcases e with msg | msg | ⟨name, msg⟩ <;>
      cases hf : input.hasFileAttr <;>
        simp [Property.set, hf, hv, PyVal.isCallable, PyVal.call0]
  · rcases v with s | n | _ | r | e | d | t <;>
      [skip; skip; skip; skip;
        rcases e with msg | msg | ⟨name, msg⟩; skip; skip] <;>
      cases hf : input.hasFileAttr <;>
        simp [Property.set, hf, hv, PyVal.isCallable, PyVal.call0]

/-- Witness for `property_set_invariant`: the success branch on an identity
validation, and the error branch on the raising-callable property. -/
theorem property_set_invariant_witness :
    (∃ v, (Property.ofVal (PyVal.str "a"))._validate (PyVal.str "b")
        = Except.ok v ∧
      ((v.isCallable = false
          ∧ ((Property.ofVal (PyVal.str "a")).set (PyVal.str "b")).1.value = v)
        ∨ (v.isCallable = true
            ∧ v.call0 = Except.ok
                (((Property.ofVal (PyVal.str "a")).set (PyVal.str "b")).1.value))))
    ∧ ((cexCallableProp.set (PyVal.str "b")).1.value = cexCallableProp.value
        ∨ ∃ v msg, cexCallableProp._validate (PyVal.str "b") = Except.ok v
            ∧ v.isCallable = true
            ∧ v.call0 = Except.error (Exc.valueError msg)
            ∧ (cexCallableProp.set (PyVal.str "b")).1.value = v) :=
  ⟨(property_set_invariant (Property.ofVal (PyVal.str "a")) (PyVal.str "b")
      (by decide)).1 (by decide),
   (property_set_invariant cexCallableProp (PyVal.str "b")
      (by decide)).2 (by decide)⟩

/-- C4 counterexample: `Property.set` does not record every input as the
current value: an input carrying a `file` attribute (a `cgi.FieldStorage`)
is deliberately not written to the `Var` storage. -/
theorem property_set_records_cex :
    ((Property.ofVal (PyVal.str "a")).set (PyVal.fileObj "up")).1.input
      ≠ PyVal.fileObj "up" := by
  decide

/-- C4 (amended): for every input that does not have a `file` attribute,
`Property.set(input)` records `input` as the property's current value,
whether or not validation succeeds. -/
theorem property_set_records (p : Property) (input : PyVal)
    (h : input.hasFileAttr = false) :
    (p.set input).1.input = input := by
  rcases hv : p._validate input with e | v
  · rcases e with msg | msg | ⟨name, msg⟩ <;>
      simp [Property.set, h, hv, PyVal.isCallable, PyVal.call0]
  · rcases v with s | n | _ | r | e | d | t <;>
      [skip; skip; skip; skip;
        rcases e with msg | msg | ⟨name, msg⟩; skip; skip] <;>
      simp [Property.set, h, hv, PyVal.isCallable, PyVal.call0]

/-- Witness for `property_set_records`. -/
theorem property_set_records_witness :
    ((Property.ofVal (PyVal.str "a")).set (PyVal.str "b")).1.input = PyVal.str "b" :=
  property_set_records (Property.ofVal (PyVal.str "a")) (PyVal.str "b") (by decide)

/-- C5: `Property.set` catches exactly the invalid-value signal: if the
validating function raises `ValueError msg`, `set` stores `msg` in `error`
and raises nothing; if it raises any other exception, that exception
propagates out of `set` unchanged. -/
theorem property_set_exceptions (p : Property) (input : PyVal) :
    (∀ msg, p._validate input = Except.error (Exc.valueError msg) →
      (p.set input).2 = Option.none ∧ (p.set input).1.error = Option.some msg)
    ∧ (∀ e, p._validate input = Except.error e → e.isValueError = false →
      (p.set input).2 = Option.some e) := by
  constructor
  · intro msg hv
    cases hf : input.hasFileAttr <;> simp [Property.set, hf, hv]
  · intro e hv he
    rcases e with msg | msg | ⟨name, msg⟩
    · simp [Exc.isValueError] at he
    · cases hf : input.hasFileAttr <;> simp [Property.set, hf, hv]
    · cases hf : input.hasFileAttr <;> simp [Property.set, hf, hv]

/-- A property whose validating function raises the invalid-value signal. -/
def witPropValueError : Property :=
  (Property.ofVal (PyVal.str "a")).validate fun _ =>
    Except.error (Exc.valueError "bad")

/-- A property whose validating function raises a `TypeError`. -/
def witPropTypeError : Property :=
  (Property.ofVal (PyVal.str "a")).validate fun _ =>
    Except.error (Exc.typeError "oops")

/-- Witness for `property_set_exceptions` on both branches. -/
theorem property_set_exceptions_witness :
    ((witPropValueError.set (PyVal.str "b")).2 = Option.none ∧
      (witPropValueError.set (PyVal.str "b")).1.error = Option.some "bad")
    ∧ (witPropTypeError.set (PyVal.str "b")).2
        = Option.some (Exc.typeError "oops") :=
  ⟨(property_set_exceptions witPropValueError (PyVal.str "b")).1 "bad" rfl,
   (property_set_exceptions witPropTypeError (PyVal.str "b")).2
     (Exc.typeError "oops") rfl (by decide)⟩

/-! ## Claim theorems: validator -/

/-- C2: eager and lazy calling conventions are behaviorally equivalent:
for every validator class (state `σ`, constructor `init`, public-method
invocations `M` with dispatch `apply`, terminal extraction `term`), every
sequence of check invocations `ms` and every value `v`, constructing the
lazy validator without a value, invoking the checks (recorded, not
executed) and applying the recorded chain to `v` produces the same outcome
— the same extracted value, or a failure at the same check — as
constructing the eager validator on `v` and invoking the same checks in
the same order followed by the terminal extraction. -/
theorem dual_lazy_eager_equiv (σ ρ M : Type) (init : PyVal → Except Exc σ)
    (apply : M → σ → σ × Option Exc) (term : σ → ρ) (ms : List M) (v : PyVal) :
    (ms.foldl DualValidator.deferCall (DualValidator.new M)).call init apply term v
      = eagerChain init apply term v ms := by
  unfold DualValidator.call eagerChain
  rw [DualValidator.foldl_deferCall]
  rfl

/-- C6: each `IntValidator` comparison check returns the validator with its
value exactly when the comparison holds, and otherwise raises a
`ValueError` whose message carries the limit; the chain
`IntValidator("15").greater_than(10).lesser_than(20).to_int()` returns 15
and `IntValidator("5").greater_than(10)` fails with the
minimum-10 message. -/
theorem int_validator_checks (n m : Int) :
    (IntValidator.greater_than n m = (n, Option.none) ↔ m < n)
    ∧ (IntValidator.greater_or_equal_than n m = (n, Option.none) ↔ m ≤ n)
    ∧ (IntValidator.lesser_than n m = (n, Option.none) ↔ n < m)
    ∧ (IntValidator.lesser_or_equal_than n m = (n, Option.none) ↔ n ≤ m)
    ∧ (¬ m < n → IntValidator.greater_than n m
        = (n, Option.some (Exc.valueError ("Must be greater than " ++ toString m))))
    ∧ (¬ m ≤ n → IntValidator.greater_or_equal_than n m
        = (n, Option.some
            (Exc.valueError ("Must be greater or equal than " ++ toString m))))
    ∧ (¬ n < m → IntValidator.lesser_than n m
        = (n, Option.some (Exc.valueError ("Must be lesser than " ++ toString m))))
    ∧ (¬ n ≤ m → IntValidator.lesser_or_equal_than n m
        = (n, Option.some
            (Exc.valueError ("Must be lesser or equal than " ++ toString m))))
    ∧ eagerChain intValidatorInit IntCheck.apply IntValidator.to_int (PyVal.str "15")
        [IntCheck.greater_than 10, IntCheck.lesser_than 20] = Except.ok 15
    ∧ eagerChain intValidatorInit IntCheck.apply IntValidator.to_int (PyVal.str "5")
        [IntCheck.greater_than 10]
      = Except.error (Exc.valueError "Must be greater than 10") := by
  refine ⟨?_, ?_, ?_, ?_, ?_, ?_, ?_, ?_, by rfl, by rfl⟩ <;>
    · simp only [IntValidator.greater_than, IntValidator.greater_or_equal_than,
        IntValidator.lesser_than, IntValidator.lesser_or_equal_than]
      split <;> simp_all

/-- Witness for `int_validator_checks`: the success and failure branches of
`greater_than` at concrete values. -/
theorem int_validator_checks_witness :
    IntValidator.greater_than 15 10 = (15, Option.none)
    ∧ IntValidator.greater_than 5 10
      = (5, Option.some
          (Exc.valueError ("Must be greater than " ++ toString (10 : Int)))) :=
  ⟨(int_validator_checks 15 10).1.mpr (by decide),
   (int_validator_checks 5 10).2.2.2.2.1 (by decide)⟩

/-- C7: eager base `Validator` construction: a non-string value fails with
the invalid-value signal carrying the must-be-a-string message; a string
succeeds, with the characters (whitespace, or `chars` when given) removed
from both ends under `strip`, from the end under `rstrip`, and from the
start under `lstrip`. -/
theorem validator_init_spec (v : PyVal) (st rst lst : Bool)
    (chars : Option (List Char)) (s : String) :
    (v.isStr = false →
      Validator.init v st rst lst chars
        = Except.error (Exc.valueError "Input must be a string"))
    ∧ Validator.init (PyVal.str s) true false false chars
        = Except.ok (pyStrip s chars)
    ∧ Validator.init (PyVal.str s) false true false chars
        = Except.ok (pyRstrip s chars)
    ∧ Validator.init (PyVal.str s) false false true chars
        = Except.ok (pyLstrip s chars)
    ∧ Validator.init (PyVal.str s) false false false chars = Except.ok s
    ∧ Validator.init (PyVal.str " hi ") true false false Option.none
        = Except.ok "hi" := by
  refine ⟨?_, rfl, rfl, rfl, rfl, by rfl⟩
  intro h
  cases v <;> simp_all [Validator.init, PyVal.isStr]

/-- Witness for `validator_init_spec`: a non-string input is rejected. -/
theorem validator_init_spec_witness :
    Validator.init (PyVal.int 3) true false false Option.none
      = Except.error (Exc.valueError "Input must be a string") :=
  (validator_init_spec (PyVal.int 3) true false false Option.none "").1 (by decide)

/-- C8: `StringValidator.to_int` replaces the wrapped value with the parsed
integer and returns it when the value parses; when it does not, the host's
native parse failure propagates with its native message, not the uniform
translated must-be-an-integer message that `IntValidator` raises. -/
theorem string_to_int_spec (s : String) (base : Nat) (n : Int) :
    (pyInt s base = Option.some n →
      StringValidator.to_int s base = Except.ok (PyVal.int n, n))
    ∧ (pyInt s base = Option.none →
      StringValidator.to_int s base
        = Except.error (Exc.valueError (pyIntErrMsg s base)))
    ∧ StringValidator.to_int "abc" 10
      = Except.error
          (Exc.valueError "invalid literal for int() with base 10: \x27abc\x27")
    ∧ pyIntErrMsg "abc" 10 ≠ "Must be an integer"
    ∧ intValidatorInit (PyVal.str "abc")
      = Except.error (Exc.valueError "Must be an integer") := by
  refine ⟨?_, ?_, by rfl, by decide, by rfl⟩ <;>
    · intro h
      simp [StringValidator.to_int, h]

/-- Witness for `string_to_int_spec`: a parseable and an unparseable
wrapped string. -/
theorem string_to_int_spec_witness :
    StringValidator.to_int "42" 10 = Except.ok (PyVal.int 42, 42)
    ∧ StringValidator.to_int "x" 10
      = Except.error (Exc.valueError (pyIntErrMsg "x" 10)) :=
  ⟨(string_to_int_spec "42" 10 42).1 (by decide),
   (string_to_int_spec "x" 10 0).2.1 (by decide)⟩

/-- The first component of a guard-style check (`return self` or raise) is
always the unchanged state. -/
theorem fst_guard_check {σ : Type} (c : Prop) [Decidable c] (s : σ)
    (a b : Option Exc) :
    (if c then (s, a) else (s, b)).1 = s := by
  split <;> rfl

/-- C10: every non-converting check preserves the wrapped value: the four
`IntValidator` comparison checks leave the wrapped integer unchanged
whether they succeed or fail, and `not_empty`, `match`, the five length
checks and the six character-class checks of `StringValidator` leave the
wrapped string unchanged. -/
theorem checks_preserve_value (n a b : Int) (s : String) (k : Nat)
    (r : String → Bool) :
    (IntValidator.lesser_than n a).1 = n
    ∧ (IntValidator.lesser_or_equal_than n a).1 = n
    ∧ (IntValidator.greater_than n b).1 = n
    ∧ (IntValidator.greater_or_equal_than n b).1 = n
    ∧ (StringValidator.not_empty s).1 = s
    ∧ (StringValidator.match' s r).1 = s
    ∧ (StringValidator.shorter_than s k).1 = s
    ∧ (StringValidator.shorter_or_equal_than s k).1 = s
    ∧ (StringValidator.length_equal s k).1 = s
    ∧ (StringValidator.longer_than s k).1 = s
    ∧ (StringValidator.longer_or_equal_than s k).1 = s
    ∧ (StringValidator.isalnum s).1 = s
    ∧ (StringValidator.isalpha s).1 = s
    ∧ (StringValidator.isdigit s).1 = s
    ∧ (StringValidator.islower s).1 = s
    ∧ (StringValidator.isupper s).1 = s
    ∧ (StringValidator.isspace s).1 = s := by
  refine ⟨?_, ?_, ?_, ?_, ?_, ?_, ?_, ?_, ?_, ?_, ?_, ?_, ?_, ?_, ?_, ?_, ?_⟩ <;>
    · simp only [IntValidator.lesser_than, IntValidator.lesser_or_equal_than,
        IntValidator.greater_than, IntValidator.greater_or_equal_than,
        StringValidator.not_empty, StringValidator.match',
        StringValidator.shorter_than, StringValidator.shorter_or_equal_than,
        StringValidator.length_equal, StringValidator.longer_than,
        StringValidator.longer_or_equal_than, StringValidator.isalnum,
        StringValidator.isalpha, StringValidator.isdigit,
        StringValidator.islower, StringValidator.isupper,
        StringValidator.isspace]
      exact fst_guard_check _ _ _ _
